import Mathlib

/-!
# Verification of `azul`'s CSS module (`src/css.rs`)

Shallow embedding of the CSS parsing and styling unit of the `azul` UI
toolkit.  Rust strings are modelled as `List Char`; the external collaborators
(the typed property parser `css_parser::ParsedCssProperty::from_kv`, the
`simplecss` tokenizer, the file system and the platform-specific `NATIVE_CSS`
constant) are parameters of the embedded functions, so every theorem about the
code in `css.rs` quantifies over their behaviour.

`usize` arithmetic on the block-nesting counter is modelled with wrapping
(`% 2 ^ 64`), i.e. the semantics of a release build; a debug build instead
panics on underflow and overflow, which is noted where it matters.
-/

/-- Rust `&str` / `String`, modelled as a list of characters. -/
abbrev Str := List Char

/-- Coerce a Lean string literal into the model's string type. -/
def str (s : String) : Str := s.toList

/-- Rust `str::trim` (leading and trailing whitespace removed).  Rust trims
Unicode `White_Space`; the model uses `Char.isWhitespace`, which agrees on the
ASCII whitespace appearing in CSS sources. -/
def strTrim (s : Str) : Str :=
  ((s.dropWhile Char.isWhitespace).reverse.dropWhile Char.isWhitespace).reverse

/-- Rust `str::starts_with` for a string pattern. -/
def strStartsWith (pat s : Str) : Bool := pat.isPrefixOf s

/-- Rust `str::ends_with` for a string pattern. -/
def strEndsWith (pat s : Str) : Bool := pat.reverse.isPrefixOf s.reverse

/-- Rust `value.trim_left_matches("[[")`: repeatedly strip a leading `[[`. -/
def trimLeftBraces : Str → Str
  | '[' :: '[' :: rest => trimLeftBraces rest
  | s => s

/-- Helper for `trimRightBraces`: strip repeated `]]` from a reversed string. -/
def trimRightBracesRev : Str → Str
  | ']' :: ']' :: rest => trimRightBracesRev rest
  | s => s

/-- Rust `value.trim_right_matches("]]")`: repeatedly strip a trailing `]]`. -/
def trimRightBraces (s : Str) : Str := (trimRightBracesRev s.reverse).reverse

/-- Rust `value.splitn(2, "|")`, observed through its first two `next()` calls:
the text before the first `|` and, when a `|` occurs, `some` of the text after
it (`none` when the string has no `|`). -/
def splitFirstPipe : Str → Str × Option Str
  | [] => ([], none)
  | c :: cs =>
    if c = '|' then ([], some cs)
    else
      let p := splitFirstPipe cs
      (c :: p.1, p.2)

/-- Rust `dynamic_id.starts_with(char::is_numeric)`.  `char::is_numeric` is the
Unicode `N*` categories; the model uses ASCII digits, which agree on CSS
identifier text. -/
def startsWithNumeric : Str → Bool
  | [] => false
  | c :: _ => c.isDigit

/-- Rust `Result::is_ok`. -/
def exceptIsOk {ε α : Type} : Except ε α → Bool
  | .ok _ => true
  | .error _ => false

/-- `css.rs` `enum DynamicCssParseError<'a>`.  `E` stands for the external
`css_parser::CssParsingError<'a>` type. -/
inductive DynamicCssParseError (E : Type) where
  | UnclosedBraces
  | NoDefaultCase
  | NoId
  | InvalidId
  | EmptyBraces
  | UnexpectedValue (e : E)
  deriving DecidableEq, Repr

/-- `css.rs` `struct DynamicCssProperty`.  `P` stands for the external
`css_parser::ParsedCssProperty` type. -/
structure DynamicCssProperty (P : Type) where
  dynamic_id : Str
  default : P
  deriving DecidableEq, Repr

/-- `css.rs` `enum CssDeclaration`. -/
inductive CssDeclaration (P : Type) where
  | Static (p : P)
  | Dynamic (d : DynamicCssProperty P)
  deriving DecidableEq, Repr

/-- The `let value` chain of `css.rs` lines 433–435, applied to the already
trimmed value of a brace-wrapped declaration: strip `[[` and `]]`, trim. -/
def innerBraceText (value : Str) : Str :=
  strTrim (trimRightBraces (trimLeftBraces value))

/-- `css.rs` `fn determine_static_or_dynamic_css_property(key, value)`.
`fromKV` is the external typed property parser
`css_parser::ParsedCssProperty::from_kv`. -/
def determine_static_or_dynamic_css_property {P E : Type}
    (fromKV : Str → Str → Except E P) (key value : Str) :
    Except (DynamicCssParseError E) (CssDeclaration P) :=
  let key := strTrim key
  let value := strTrim value
  match strStartsWith (str "[[") value, strEndsWith (str "]]") value with
  | true, false => .error .UnclosedBraces
  | false, true => .error .UnclosedBraces
  | true, true =>
    let pipe := splitFirstPipe (innerBraceText value)
    match pipe.2 with
    | none =>
      -- `splitn` yielded a single field: the whole inner text
      let id := pipe.1
      if (strTrim id).isEmpty then .error .EmptyBraces
      else if exceptIsOk (fromKV key id) then .error .NoId
      else .error .NoDefaultCase
    | some default_case₀ =>
      let dynamic_id := strTrim pipe.1
      let default_case := strTrim default_case₀
      match dynamic_id.isEmpty, default_case.isEmpty with
      | true, true => .error .EmptyBraces
      | true, false => .error .NoId
      | false, true => .error .NoDefaultCase
      | false, false =>
        if startsWithNumeric dynamic_id || exceptIsOk (fromKV key dynamic_id) then
          .error .InvalidId
        else
          match fromKV key default_case with
          | .error e => .error (.UnexpectedValue e)
          | .ok default_case_parsed =>
            .ok (.Dynamic ⟨dynamic_id, default_case_parsed⟩)
  | false, false =>
    match fromKV key value with
    | .error e => .error (.UnexpectedValue e)
    | .ok p => .ok (.Static p)

/-- Modelled from the spec: value type of the external Typed Property Parser
(`css_parser::ParsedCssProperty` is not under `src/`), restricted to the
`text-align` property used by the spec's concrete scenarios. -/
inductive TextAlignmentHorz where
  | Left
  | Center
  | Right
  deriving DecidableEq, Repr

/-- Modelled from the spec: the external `ParsedCssProperty`, restricted to
the `TextAlign` variant exercised by the spec's concrete scenarios. -/
inductive MiniProp where
  | TextAlign (h : TextAlignmentHorz)
  deriving DecidableEq, Repr

/-- Modelled from the spec: the external `CssParsingError`, restricted to the
`InvalidValueErr` variant exercised by the spec's concrete scenarios. -/
inductive MiniErr where
  | InvalidValueErr (s : Str)
  deriving DecidableEq, Repr

/-- Modelled from the spec: a concrete instance of the external Typed Property
Parser `(key, value) -> Result<TypedValue, TypedParseError>` covering the
`text-align` key of the spec's concrete scenarios. -/
def miniFromKV (key value : Str) : Except MiniErr MiniProp :=
  if key = str "text-align" then
    if value = str "center" then .ok (.TextAlign .Center)
    else if value = str "left" then .ok (.TextAlign .Left)
    else if value = str "right" then .ok (.TextAlign .Right)
    else .error (.InvalidValueErr value)
  else .error (.InvalidValueErr value)

/-- The tokens produced by the external `simplecss::Tokenizer`.  `Unknown`
stands for every further `simplecss` token variant, all of which fall into the
`_ => {}` arm of `Css::new_from_str`. -/
inductive Token where
  | EndOfStream
  | BlockStart
  | BlockEnd
  | TypeSelector (div_type : Str)
  | IdSelector (id : Str)
  | ClassSelector (class_name : Str)
  | Declaration (key val : Str)
  | PseudoClass (pseudo_class : Str)
  | Unknown
  deriving DecidableEq, Repr

/-- One `tokenizer.parse_next()` outcome: a token or a
`simplecss` syntax error (`S` stands for `errors::CssSyntaxError`). -/
abbrev TokRes (S : Type) := Except S Token

/-- `css.rs` `enum CssParseError<'a>`. -/
inductive CssParseError (S E : Type) where
  | ParseError (e : S)
  | UnclosedBlock
  | MalformedCss
  | DynamicCssParseError (e : DynamicCssParseError E)
  | UnexpectedValue (e : E)
  deriving DecidableEq, Repr

/-- `css.rs` `struct CssRule`. -/
structure CssRule (P : Type) where
  html_type : Str
  id : Option Str
  classes : List Str
  declaration : Str × CssDeclaration P
  deriving DecidableEq, Repr

/-- `css.rs` `struct Css`.  The two `#[cfg(debug_assertions)]` fields are
included (the hot-reload claims are about debug builds);
`FastHashMap<String, ParsedCssProperty>` is modelled as an association list. -/
structure Css (P : Type) where
  hot_reload_path : Option Str
  hot_reload_override_native : Bool
  rules : List (CssRule P)
  dynamic_css_overrides : List (Str × P)
  needs_relayout : Bool
  deriving DecidableEq, Repr

/-- The local mutable state of the `loop` in `Css::new_from_str`.
`current_classes` models the `HashSet<&str>`: membership-guarded insertion
keeps it duplicate-free; its order is irrelevant because emission sorts. -/
structure ParserState (P : Type) where
  block_nesting : Nat
  parser_in_block : Bool
  current_type : Str
  current_id : Option Str
  current_classes : List Str
  current_pseudo_selector : Option Str
  css_rules : List (CssRule P)
  deriving DecidableEq, Repr

/-- `HashSet::insert` on the model's duplicate-free list. -/
def insertClass (c : Str) (l : List Str) : List Str :=
  if c ∈ l then l else c :: l

/-- `css_rule.classes.sort()` after collecting the class set: the emitted
class list, sorted lexicographically ascending.  (Rust collects the
`HashSet` in arbitrary order and then sorts; a sorted duplicate-free list is
determined by its elements, so the model's fixed collection order is
extensionally faithful.) -/
def sortClasses (l : List Str) : List Str :=
  l.insertionSort (· ≤ ·)

/-- The initial parser state of `Css::new_from_str`. -/
def initParserState (P : Type) : ParserState P :=
  { block_nesting := 0
    parser_in_block := false
    current_type := str "*"
    current_id := none
    current_classes := []
    current_pseudo_selector := none
    css_rules := [] }

/-- One iteration of the `loop` in `Css::new_from_str` for a successfully
tokenized non-`EndOfStream` token.  The `usize` counter `block_nesting` is
modelled with wrapping arithmetic modulo `2 ^ 64` (release semantics; a debug
build panics when `block_nesting -= 1` underflows or `+= 1` overflows). -/
def stepToken {P E : Type} (fromKV : Str → Str → Except E P) (S : Type)
    (st : ParserState P) (tok : Token) :
    Except (CssParseError S E) (ParserState P) :=
  match tok with
  | .EndOfStream => .ok st
  | .BlockStart =>
    .ok { st with parser_in_block := true,
                  block_nesting := (st.block_nesting + 1) % 2 ^ 64 }
  | .BlockEnd =>
    .ok { st with block_nesting := (st.block_nesting + (2 ^ 64 - 1)) % 2 ^ 64,
                  parser_in_block := false
                  current_type := str "*"
                  current_id := none
                  current_classes := []
                  current_pseudo_selector := none }
  | .TypeSelector div_type =>
    if st.parser_in_block then .error .MalformedCss
    else .ok { st with current_type := div_type }
  | .IdSelector id =>
    if st.parser_in_block then .error .MalformedCss
    else .ok { st with current_id := some id }
  | .ClassSelector class_name =>
    if st.parser_in_block then .error .MalformedCss
    else .ok { st with current_classes := insertClass class_name st.current_classes }
  | .Declaration key val =>
    if !st.parser_in_block then .error .MalformedCss
    else if st.current_pseudo_selector.isSome then .ok st
    else
      match determine_static_or_dynamic_css_property fromKV key val with
      | .error e => .error (.DynamicCssParseError e)
      | .ok css_decl =>
        .ok { st with css_rules := st.css_rules ++
                [{ html_type := st.current_type
                   id := st.current_id
                   classes := sortClasses st.current_classes
                   declaration := (key, css_decl) }] }
  | .PseudoClass pseudo_class =>
    if st.parser_in_block then .error .MalformedCss
    else .ok { st with current_pseudo_selector := some pseudo_class }
  | .Unknown => .ok st

/-- The `loop` of `Css::new_from_str` over the token stream: stops at
`EndOfStream` (or when the stream is exhausted), aborts on the first
tokenizer error or step error. -/
def runTokens {P E S : Type} (fromKV : Str → Str → Except E P)
    (st : ParserState P) :
    List (TokRes S) → Except (CssParseError S E) (ParserState P)
  | [] => .ok st
  | .error e :: _ => .error (.ParseError e)
  | .ok .EndOfStream :: _ => .ok st
  | .ok tok :: rest =>
    match stepToken fromKV S st tok with
    | .error e => .error e
    | .ok st' => runTokens fromKV st' rest

namespace Css

/-- `Css::empty()`. -/
def empty (P : Type) : Css P :=
  { hot_reload_path := none
    hot_reload_override_native := false
    rules := []
    needs_relayout := false
    dynamic_css_overrides := [] }

/-- `Css::new_from_str(css_string)`, taken at the interface to the external
`simplecss` tokenizer: the argument is the stream of `parse_next()` results
for `css_string`. -/
def new_from_str {P E S : Type} (fromKV : Str → Str → Except E P)
    (stream : List (TokRes S)) : Except (CssParseError S E) (Css P) :=
  match runTokens fromKV (initParserState P) stream with
  | .error e => .error e
  | .ok final =>
    -- non-even number of blocks
    if final.block_nesting ≠ 0 then .error .UnclosedBlock
    else
      .ok { hot_reload_path := none
            hot_reload_override_native := false
            rules := final.css_rules
            -- force re-layout for the first frame
            needs_relayout := true
            dynamic_css_overrides := [] }

end Css

/-- `css.rs` `enum HotReloadError` (debug builds only).  `F` stands for
`std::io::Error`.  Note that the `FailedToReload` variant is declared in the
source (with a `TODO` comment) but never constructed. -/
inductive HotReloadError (F : Type) where
  | Io (e : F) (path : Str)
  | FailedToReload
  deriving DecidableEq, Repr

/-- `Css::hot_reload(file_path)` (debug builds only).  `readFile` models
`std::fs::read_to_string`, `tokenize` the external tokenizer applied to the
file's text.  The outer `Option` models Rust panics: `none` is the
`panic!("Hot reload parsing error in file ...")` the function executes when
`new_from_str` fails, which aborts the process instead of returning. -/
def Css.hot_reload {P E S F : Type} (fromKV : Str → Str → Except E P)
    (readFile : Str → Except F Str) (tokenize : Str → List (TokRes S))
    (file_path : Str) : Option (Except (HotReloadError F) (Css P)) :=
  match readFile file_path with
  | .error e => some (.error (.Io e file_path))
  | .ok initial_css =>
    match Css.new_from_str fromKV (tokenize initial_css) with
    | .error _ => none
    | .ok css => some (.ok { css with hot_reload_path := some file_path })

/-- `format!("\x7b\x7d\r\n\x7b\x7d", NATIVE_CSS, initial_css)`: the built-in native
stylesheet, a CRLF separator, then the reloaded file text. -/
def appendNativeCss (nativeCss reloaded_css : Str) : Str :=
  nativeCss ++ str "\r\n" ++ reloaded_css

/-- The `target_css` computed by `reload_css`: the reloaded text, prefixed by
the native stylesheet when the override-native flag is set. -/
def reloadTargetCss (nativeCss : Str) (override_native : Bool)
    (reloaded_css : Str) : Str :=
  if override_native then appendNativeCss nativeCss reloaded_css
  else reloaded_css

/-- `Css::hot_reload_override_native(file_path)` (debug builds only): like
`hot_reload`, but parses `appendNativeCss NATIVE_CSS initial_css`
and records the override-native flag.  `nativeCss` models the platform's
`NATIVE_CSS` constant (an `include_str!` not under `src/`); `none` again
models the `panic!` on parse failure.  (Named with a `_ctor` suffix because
Lean forbids a `Css.` definition sharing the name of the struct field.) -/
def Css.hot_reload_override_native_ctor {P E S F : Type}
    (fromKV : Str → Str → Except E P) (readFile : Str → Except F Str)
    (tokenize : Str → List (TokRes S)) (nativeCss : Str)
    (file_path : Str) : Option (Except (HotReloadError F) (Css P)) :=
  match readFile file_path with
  | .error e => some (.error (.Io e file_path))
  | .ok initial_css =>
    let target_css := appendNativeCss nativeCss initial_css
    match Css.new_from_str fromKV (tokenize target_css) with
    | .error _ => none
    | .ok css =>
      some (.ok { css with hot_reload_path := some file_path
                           hot_reload_override_native := true })

/-- `Css::reload_css(&mut self)` (debug builds only): returns the new value
of `*self`.  Every early `return` (no hot-reload path, read failure, parse
failure) leaves `self` untouched; on success the freshly parsed `Css` is
installed after copying the path, the dynamic overrides and the
override-native flag forward from the old value. -/
def Css.reload_css {P E S F : Type} (fromKV : Str → Str → Except E P)
    (readFile : Str → Except F Str) (tokenize : Str → List (TokRes S))
    (nativeCss : Str) (self : Css P) : Css P :=
  match self.hot_reload_path with
  | none => self
  | some file_path =>
    match readFile file_path with
    | .error _ => self
    | .ok reloaded_css =>
      let target_css :=
        reloadTargetCss nativeCss self.hot_reload_override_native reloaded_css
      match Css.new_from_str fromKV (tokenize target_css) with
      | .error _ => self
      | .ok parsed_css =>
        { parsed_css with
            hot_reload_path := self.hot_reload_path
            dynamic_css_overrides := self.dynamic_css_overrides
            hot_reload_override_native := self.hot_reload_override_native }

/-- `Css::native()`: `Self::new_from_str(NATIVE_CSS).unwrap()`.  `none`
models the `unwrap` panic when the built-in stylesheet fails to parse. -/
def Css.native {P E S : Type} (fromKV : Str → Str → Except E P)
    (tokenize : Str → List (TokRes S)) (nativeCss : Str) :
    Option (Css P) :=
  match Css.new_from_str fromKV (tokenize nativeCss) with
  | .error _ => none
  | .ok css => some css


/-- C1: for every key and value whose trimmed value is brace-wrapped
(`[[` … `]]`), with inner text split by a `|` into a non-empty trimmed id and
a non-empty trimmed default, where the id does not start with a numeric
character, the id does not parse as a literal value for the key, and the
default parses for the key, `determine_static_or_dynamic_css_property`
returns `Ok(Dynamic { dynamic_id = id, default = parsed default })`. -/
theorem c1_dynamic_success {P E : Type} (fromKV : Str → Str → Except E P)
    (key value id₀ d₀ : Str) (p : P)
    (hsb : strStartsWith (str "[[") (strTrim value) = true)
    (heb : strEndsWith (str "]]") (strTrim value) = true)
    (hsplit : splitFirstPipe (innerBraceText (strTrim value)) = (id₀, some d₀))
    (hid : (strTrim id₀).isEmpty = false)
    (hd : (strTrim d₀).isEmpty = false)
    (hnum : startsWithNumeric (strTrim id₀) = false)
    (hidparse : exceptIsOk (fromKV (strTrim key) (strTrim id₀)) = false)
    (hdparse : fromKV (strTrim key) (strTrim d₀) = .ok p) :
    determine_static_or_dynamic_css_property fromKV key value =
      .ok (.Dynamic ⟨strTrim id₀, p⟩) := by
  simp [determine_static_or_dynamic_css_property, hsb, heb, hsplit, hid, hd,
    hnum, hidparse, hdparse]

/-- Witness for C1 at the spec's concrete scenario:
`key = "text-align"`, `value = "[[ hello | center ]]"` yields
`Dynamic { id: "hello", default: TextAlign(Center) }`. -/
theorem c1_witness :
    determine_static_or_dynamic_css_property miniFromKV
      (str "text-align") (str "[[ hello | center ]]") =
      .ok (.Dynamic ⟨str "hello", .TextAlign .Center⟩) :=
  (c1_dynamic_success miniFromKV (str "text-align") (str "[[ hello | center ]]")
    (str "hello ") (str " center") (.TextAlign .Center)
    (by decide) (by decide) (by rfl) (by decide) (by decide) (by decide)
    (by decide) (by rfl)).trans (by rfl)

/-- C2: for every key and value whose trimmed value neither starts with `[[`
nor ends with `]]`, `determine_static_or_dynamic_css_property` returns
`Static(p)` exactly when the typed property parser returns `p` for the key
and the trimmed value, and otherwise surfaces the typed parser's error
unchanged, wrapped as `UnexpectedValue`. -/
theorem c2_static_path {P E : Type} (fromKV : Str → Str → Except E P)
    (key value : Str)
    (hsb : strStartsWith (str "[[") (strTrim value) = false)
    (heb : strEndsWith (str "]]") (strTrim value) = false) :
    determine_static_or_dynamic_css_property fromKV key value =
      match fromKV (strTrim key) (strTrim value) with
      | .ok p => .ok (.Static p)
      | .error e => .error (.UnexpectedValue e) := by
  cases h : fromKV (strTrim key) (strTrim value) <;>
    simp [determine_static_or_dynamic_css_property, hsb, heb, h]

/-- Witness for C2 at the spec's concrete scenario:
`key = "text-align"`, `value = " center "` yields
`Static(TextAlign(Center))`. -/
theorem c2_witness :
    determine_static_or_dynamic_css_property miniFromKV
      (str "text-align") (str " center   ") =
      .ok (.Static (.TextAlign .Center)) :=
  (c2_static_path miniFromKV (str "text-align") (str " center   ")
    (by decide) (by decide)).trans (by rfl)

/-- C3: for every key and value where exactly one of the two holds — the
trimmed value starts with `[[`, or it ends with `]]` —
`determine_static_or_dynamic_css_property` returns the `UnclosedBraces`
error, never any other error or success. -/
theorem c3_unclosed_braces {P E : Type} (fromKV : Str → Str → Except E P)
    (key value : Str)
    (h : strStartsWith (str "[[") (strTrim value) ≠
         strEndsWith (str "]]") (strTrim value)) :
    determine_static_or_dynamic_css_property fromKV key value =
      .error .UnclosedBraces := by
  unfold determine_static_or_dynamic_css_property
  cases hsb : strStartsWith (str "[[") (strTrim value) <;>
    cases heb : strEndsWith (str "]]") (strTrim value) <;>
      simp_all

/-- Witness for C3 at the spec's concrete scenario:
`value = "[[ 400px"` yields `UnclosedBraces`. -/
theorem c3_witness :
    determine_static_or_dynamic_css_property miniFromKV
      (str "text-align") (str "[[  400px") =
      .error .UnclosedBraces :=
  c3_unclosed_braces miniFromKV (str "text-align") (str "[[  400px")
    (by decide)

/-- C4: for every brace-wrapped value (trimmed value starts with `[[` and
ends with `]]`), `determine_static_or_dynamic_css_property` classifies the
malformed inner text exactly as follows.  With no `|`: empty inner text is
`EmptyBraces`; inner text that parses as a literal value for the key is
`NoId`; inner text that does not parse is `NoDefaultCase`.  With a `|`: both
sides empty after trimming is `EmptyBraces`; empty id with non-empty default
is `NoId`; non-empty id with empty default is `NoDefaultCase`; a non-empty id
that starts with a numeric character or itself parses as a literal value for
the key is `InvalidId`. -/
theorem c4_malformed_brace_taxonomy {P E : Type}
    (fromKV : Str → Str → Except E P) (key value id₀ d₀ : Str)
    (hsb : strStartsWith (str "[[") (strTrim value) = true)
    (heb : strEndsWith (str "]]") (strTrim value) = true) :
    (splitFirstPipe (innerBraceText (strTrim value)) = (id₀, none) →
      ((strTrim id₀).isEmpty = true →
        determine_static_or_dynamic_css_property fromKV key value =
          .error .EmptyBraces) ∧
      ((strTrim id₀).isEmpty = false →
        exceptIsOk (fromKV (strTrim key) id₀) = true →
        determine_static_or_dynamic_css_property fromKV key value =
          .error .NoId) ∧
      ((strTrim id₀).isEmpty = false →
        exceptIsOk (fromKV (strTrim key) id₀) = false →
        determine_static_or_dynamic_css_property fromKV key value =
          .error .NoDefaultCase)) ∧
    (splitFirstPipe (innerBraceText (strTrim value)) = (id₀, some d₀) →
      ((strTrim id₀).isEmpty = true → (strTrim d₀).isEmpty = true →
        determine_static_or_dynamic_css_property fromKV key value =
          .error .EmptyBraces) ∧
      ((strTrim id₀).isEmpty = true → (strTrim d₀).isEmpty = false →
        determine_static_or_dynamic_css_property fromKV key value =
          .error .NoId) ∧
      ((strTrim id₀).isEmpty = false → (strTrim d₀).isEmpty = true →
        determine_static_or_dynamic_css_property fromKV key value =
          .error .NoDefaultCase) ∧
      ((strTrim id₀).isEmpty = false → (strTrim d₀).isEmpty = false →
        (startsWithNumeric (strTrim id₀) ||
          exceptIsOk (fromKV (strTrim key) (strTrim id₀))) = true →
        determine_static_or_dynamic_css_property fromKV key value =
          .error .InvalidId)) := by
  constructor
  · intro hs
    refine ⟨fun h1 => ?_, fun h1 h2 => ?_, fun h1 h2 => ?_⟩ <;>
      simp [determine_static_or_dynamic_css_property, hsb, heb, hs, h1, *]
  · intro hs
    refine ⟨fun h1 h2 => ?_, fun h1 h2 => ?_, fun h1 h2 => ?_,
      fun h1 h2 h3 => ?_⟩ <;>
      simp [determine_static_or_dynamic_css_property, hsb, heb, hs, h1, h2, *]

/-- Witness for C4, covering all seven taxonomy branches at the spec's
concrete scenarios for `key = "text-align"`. -/
theorem c4_witness :
    determine_static_or_dynamic_css_property miniFromKV
        (str "text-align") (str "[[ ]]") = .error .EmptyBraces ∧
    determine_static_or_dynamic_css_property miniFromKV
        (str "text-align") (str "[[ center ]]") = .error .NoId ∧
    determine_static_or_dynamic_css_property miniFromKV
        (str "text-align") (str "[[    400px ]]") = .error .NoDefaultCase ∧
    determine_static_or_dynamic_css_property miniFromKV
        (str "text-align") (str "[[ |  ]]") = .error .EmptyBraces ∧
    determine_static_or_dynamic_css_property miniFromKV
        (str "text-align") (str "[[ | center ]]") = .error .NoId ∧
    determine_static_or_dynamic_css_property miniFromKV
        (str "text-align") (str "[[ hello |  ]]") = .error .NoDefaultCase ∧
    determine_static_or_dynamic_css_property miniFromKV
        (str "text-align") (str "[[  400px | center ]]") = .error .InvalidId :=
  ⟨((c4_malformed_brace_taxonomy miniFromKV (str "text-align") (str "[[ ]]")
      [] [] (by decide) (by decide)).1 (by decide)).1 (by decide),
   ((c4_malformed_brace_taxonomy miniFromKV (str "text-align")
      (str "[[ center ]]") (str "center") [] (by decide) (by decide)).1
      (by decide)).2.1 (by decide) (by rfl),
   ((c4_malformed_brace_taxonomy miniFromKV (str "text-align")
      (str "[[    400px ]]") (str "400px") [] (by decide) (by decide)).1
      (by decide)).2.2 (by decide) (by rfl),
   ((c4_malformed_brace_taxonomy miniFromKV (str "text-align")
      (str "[[ |  ]]") [] [] (by decide) (by decide)).2
      (by decide)).1 (by decide) (by decide),
   ((c4_malformed_brace_taxonomy miniFromKV (str "text-align")
      (str "[[ | center ]]") [] (str " center") (by decide) (by decide)).2
      (by decide)).2.1 (by decide) (by decide),
   ((c4_malformed_brace_taxonomy miniFromKV (str "text-align")
      (str "[[ hello |  ]]") (str "hello ") [] (by decide) (by decide)).2
      (by decide)).2.2.1 (by decide) (by decide),
   ((c4_malformed_brace_taxonomy miniFromKV (str "text-align")
      (str "[[  400px | center ]]") (str "400px ") (str " center")
      (by decide) (by decide)).2 (by decide)).2.2.2 (by decide) (by decide)
      (by rfl)⟩

/-- C5: a `TypeSelector`, `IdSelector`, `ClassSelector` or `PseudoClass`
token arriving while inside a declaration block, and a `Declaration` token
arriving while outside one, make `Css::new_from_str` fail with
`MalformedCss`; a stream ending with nonzero block-nesting depth yields
`UnclosedBlock`; and a failing step aborts the whole parse with that error
(the remaining stream is ignored and no partial rule list is returned). -/
theorem c5_malformed_css_and_unclosed_block {P E S : Type}
    (fromKV : Str → Str → Except E P) :
    (∀ (st : ParserState P) (s : Str), st.parser_in_block = true →
      stepToken fromKV S st (.TypeSelector s) = .error .MalformedCss ∧
      stepToken fromKV S st (.IdSelector s) = .error .MalformedCss ∧
      stepToken fromKV S st (.ClassSelector s) = .error .MalformedCss ∧
      stepToken fromKV S st (.PseudoClass s) = .error .MalformedCss) ∧
    (∀ (st : ParserState P) (k v : Str), st.parser_in_block = false →
      stepToken fromKV S st (.Declaration k v) = .error .MalformedCss) ∧
    (∀ (st : ParserState P) (tok : Token) (e : CssParseError S E)
        (rest : List (TokRes S)),
      stepToken fromKV S st tok = .error e →
      runTokens fromKV st (.ok tok :: rest) = .error e) ∧
    (∀ (stream : List (TokRes S)) (final : ParserState P),
      runTokens fromKV (initParserState P) stream = .ok final →
      final.block_nesting ≠ 0 →
      Css.new_from_str fromKV stream = .error .UnclosedBlock) := by
  refine ⟨?_, ?_, ?_, ?_⟩
  · intro st s h
    refine ⟨?_, ?_, ?_, ?_⟩ <;> simp [stepToken, h]
  · intro st k v h
    simp [stepToken, h]
  · intro st tok e rest h
    cases tok <;> simp_all [runTokens, stepToken]
  · intro stream final hrun hn
    simp [Css.new_from_str, hrun, hn]

/-- Witness for C5: concrete instances of all four conjuncts — a class
selector inside a block and a declaration outside a block are `MalformedCss`
(aborting the rest of the stream), and a lone `BlockStart` ends as
`UnclosedBlock`. -/
theorem c5_witness :
    stepToken miniFromKV Unit
        { initParserState MiniProp with parser_in_block := true }
        (.ClassSelector (str "a")) = .error .MalformedCss ∧
    stepToken miniFromKV Unit (initParserState MiniProp)
        (.Declaration (str "text-align") (str "center")) =
      .error .MalformedCss ∧
    runTokens (S := Unit) miniFromKV (initParserState MiniProp)
        [.ok (.Declaration (str "text-align") (str "center")),
         .ok .BlockStart, .ok .EndOfStream] =
      .error .MalformedCss ∧
    Css.new_from_str (S := Unit) miniFromKV [.ok .BlockStart] =
      .error .UnclosedBlock :=
  have h := c5_malformed_css_and_unclosed_block
    (P := MiniProp) (E := MiniErr) (S := Unit) miniFromKV
  ⟨(h.1 { initParserState MiniProp with parser_in_block := true }
      (str "a") rfl).2.2.1,
   h.2.1 (initParserState MiniProp) (str "text-align") (str "center") rfl,
   h.2.2.1 (initParserState MiniProp)
     (.Declaration (str "text-align") (str "center")) .MalformedCss
     [.ok .BlockStart, .ok .EndOfStream] rfl,
   h.2.2.2 [.ok .BlockStart]
     { initParserState MiniProp with parser_in_block := true, block_nesting := 1 }
     rfl (by decide)⟩

/-- C8: `Css::empty()` has zero rules, `needs_relayout = false` and an empty
override map, while every successful `Css::new_from_str` has
`needs_relayout = true` unconditionally and an empty override map. -/
theorem c8_relayout_on_construction {P E S : Type}
    (fromKV : Str → Str → Except E P) :
    ((Css.empty P).rules = [] ∧ (Css.empty P).needs_relayout = false ∧
      (Css.empty P).dynamic_css_overrides = []) ∧
    ∀ (stream : List (TokRes S)) (css : Css P),
      Css.new_from_str fromKV stream = .ok css →
      css.needs_relayout = true ∧ css.dynamic_css_overrides = [] := by
  refine ⟨⟨rfl, rfl, rfl⟩, ?_⟩
  intro stream css h
  unfold Css.new_from_str at h
  rcases hrun : runTokens fromKV (initParserState P) stream with e | final <;>
    rw [hrun] at h <;> dsimp only at h
  · cases h
  · by_cases hn : final.block_nesting = 0
    · rw [if_neg (fun hc => hc hn)] at h
      cases h
      exact ⟨rfl, rfl⟩
    · rw [if_pos hn] at h
      cases h

/-- Witness for C8: the `empty()` field values, and the flags of the `Css`
successfully parsed from the empty token stream. -/
theorem c8_witness :
    (Css.empty MiniProp).rules = [] ∧
    (Css.empty MiniProp).needs_relayout = false ∧
    (Css.empty MiniProp).dynamic_css_overrides = [] ∧
    (Css.mk none false [] [] true : Css MiniProp).needs_relayout = true ∧
    (Css.mk none false [] [] true : Css MiniProp).dynamic_css_overrides = [] :=
  have h := c8_relayout_on_construction
    (P := MiniProp) (E := MiniErr) (S := Unit) miniFromKV
  ⟨h.1.1, h.1.2.1, h.1.2.2, (h.2 [] (Css.mk none false [] [] true) rfl).1,
   (h.2 [] (Css.mk none false [] [] true) rfl).2⟩

/-- C10: evaluation of `Css::new_from_str` at the failing input.  The claim
says a `BlockEnd` at block-nesting depth zero produces a typed error result;
the code instead executes the unguarded `block_nesting -= 1` on the `usize`
counter (`css.rs` line 303).  In a debug build this panics (underflow); under
the release (wrapping) semantics modelled here, the counter wraps to
`2 ^ 64 - 1` and a subsequent `BlockStart` wraps it back to zero, so the
unbalanced stream `BlockEnd, BlockStart` parses to `Ok` with no error at
all. -/
theorem c10_unguarded_decrement_eval :
    stepToken miniFromKV Unit (initParserState MiniProp) .BlockEnd =
      .ok { initParserState MiniProp with block_nesting := 2 ^ 64 - 1 } ∧
    Css.new_from_str (S := Unit) miniFromKV [.ok .BlockEnd, .ok .BlockStart] =
      .ok (Css.mk none false [] [] true) :=
  ⟨rfl, rfl⟩

/-- C7: if `Css::reload_css` fails for any reason (no hot-reload path, read
failure, or parse failure of the re-read text), the whole `Css` value is
unchanged; if it succeeds, the rule list and relayout flag come from the
fresh parse while the prior `dynamic_css_overrides`, `hot_reload_path` and
`hot_reload_override_native` are preserved across the swap. -/
theorem c7_reload_css_nondestructive {P E S F : Type}
    (fromKV : Str → Str → Except E P) (readFile : Str → Except F Str)
    (tokenize : Str → List (TokRes S)) (nativeCss : Str) (self : Css P) :
    (self.hot_reload_path = none →
      Css.reload_css fromKV readFile tokenize nativeCss self = self) ∧
    (∀ fp e, self.hot_reload_path = some fp → readFile fp = .error e →
      Css.reload_css fromKV readFile tokenize nativeCss self = self) ∧
    (∀ fp content (e : CssParseError S E),
      self.hot_reload_path = some fp → readFile fp = .ok content →
      Css.new_from_str fromKV (tokenize (reloadTargetCss nativeCss
          self.hot_reload_override_native content)) = .error e →
      Css.reload_css fromKV readFile tokenize nativeCss self = self) ∧
    (∀ fp content (parsed : Css P),
      self.hot_reload_path = some fp → readFile fp = .ok content →
      Css.new_from_str fromKV (tokenize (reloadTargetCss nativeCss
          self.hot_reload_override_native content)) = .ok parsed →
      (Css.reload_css fromKV readFile tokenize nativeCss self).rules =
          parsed.rules ∧
      (Css.reload_css fromKV readFile tokenize nativeCss self).needs_relayout =
          parsed.needs_relayout ∧
      (Css.reload_css fromKV readFile tokenize nativeCss self).dynamic_css_overrides =
          self.dynamic_css_overrides ∧
      (Css.reload_css fromKV readFile tokenize nativeCss self).hot_reload_path =
          self.hot_reload_path ∧
      (Css.reload_css fromKV readFile tokenize
          nativeCss self).hot_reload_override_native =
        self.hot_reload_override_native) := by
  refine ⟨?_, ?_, ?_, ?_⟩
  · intro h
    simp [Css.reload_css, h]
  · intro fp e h hr
    simp [Css.reload_css, h, hr]
  · intro fp content e h hr hp
    simp [Css.reload_css, h, hr, hp]
  · intro fp content parsed h hr hp
    refine ⟨?_, ?_, ?_, ?_, ?_⟩ <;> simp [Css.reload_css, h, hr, hp]

/-- Witness for C7: the missing-path and read-failure branches leave a
concrete `Css` value (with one dynamic override) untouched, and a successful
reload from an empty token stream keeps its override list and path while
taking the new rule list and relayout flag. -/
theorem c7_witness :
    Css.reload_css (S := Unit) (F := Unit) miniFromKV
        (fun _ => .ok (str "")) (fun _ => []) (str "")
        (Css.mk none true [] [(str "x", .TextAlign .Left)] false) =
      Css.mk none true [] [(str "x", .TextAlign .Left)] false ∧
    Css.reload_css (S := Unit) (F := Unit) miniFromKV
        (fun _ => .error ()) (fun _ => []) (str "")
        (Css.mk (some (str "a.css")) false [] [(str "x", .TextAlign .Left)] false) =
      Css.mk (some (str "a.css")) false [] [(str "x", .TextAlign .Left)] false ∧
    (Css.reload_css (S := Unit) (F := Unit) miniFromKV
        (fun _ => .ok (str "")) (fun _ => []) (str "")
        (Css.mk (some (str "a.css")) false [] [(str "x", .TextAlign .Left)]
          false)).needs_relayout = true ∧
    (Css.reload_css (S := Unit) (F := Unit) miniFromKV
        (fun _ => .ok (str "")) (fun _ => []) (str "")
        (Css.mk (some (str "a.css")) false [] [(str "x", .TextAlign .Left)]
          false)).dynamic_css_overrides = [(str "x", .TextAlign .Left)] :=
  have h₁ := c7_reload_css_nondestructive miniFromKV
    (fun _ => .ok (str "")) (fun _ => ([] : List (TokRes Unit))) (str "")
    (Css.mk none true [] [(str "x", .TextAlign .Left)] false)
  have h₂ := c7_reload_css_nondestructive miniFromKV
    (fun _ => .error ()) (fun _ => ([] : List (TokRes Unit))) (str "")
    (Css.mk (some (str "a.css")) false [] [(str "x", .TextAlign .Left)] false)
  have h₃ := c7_reload_css_nondestructive miniFromKV
    (fun _ => .ok (str "")) (fun _ => ([] : List (TokRes Unit))) (str "")
    (Css.mk (some (str "a.css")) false [] [(str "x", .TextAlign .Left)] false)
  ⟨h₁.1 rfl,
   h₂.2.1 (str "a.css") () rfl rfl,
   ((h₃.2.2.2 (str "a.css") (str "") (Css.mk none false [] [] true)
      rfl rfl rfl).2.1).trans rfl,
   (h₃.2.2.2 (str "a.css") (str "") (Css.mk none false [] [] true)
      rfl rfl rfl).2.2.1⟩

/-- C9 counterexample: a file system on which `"bad.css"` reads successfully
but its contents fail to parse (a declaration token outside any block).  The
claim says `Css::hot_reload` returns the parse failure to the caller as a
typed, non-process-fatal result; instead the function executes
`panic!("Hot reload parsing error ...")` (`css.rs` line 208), modelled as
`none` — no typed result is produced and the process aborts. -/
theorem c9_counterexample :
    Css.hot_reload (S := Unit) (F := Unit) miniFromKV
      (fun _ => .ok (str "text-align: center;"))
      (fun _ => [.ok (.Declaration (str "text-align") (str "center"))])
      (str "bad.css") = none := rfl

/-- C9 as amended: the hot-reload constructors return a typed
`HotReloadError::Io` result on file-read failure, but a parse failure of the
file's contents is process-fatal (a `panic!`, modelled `none`) in both
constructors — exactly like `Css::native()`'s `unwrap` on a parse failure of
the built-in native stylesheet; `native()` succeeds otherwise. -/
theorem c9_hot_reload_fatality {P E S F : Type}
    (fromKV : Str → Str → Except E P) (readFile : Str → Except F Str)
    (tokenize : Str → List (TokRes S)) (nativeCss file_path : Str) :
    (∀ e, readFile file_path = .error e →
      Css.hot_reload fromKV readFile tokenize file_path =
        some (.error (.Io e file_path)) ∧
      Css.hot_reload_override_native_ctor fromKV readFile tokenize nativeCss
          file_path =
        some (.error (.Io e file_path))) ∧
    (∀ content (pe : CssParseError S E), readFile file_path = .ok content →
      Css.new_from_str fromKV (tokenize content) = .error pe →
      Css.hot_reload fromKV readFile tokenize file_path = none) ∧
    (∀ content (pe : CssParseError S E), readFile file_path = .ok content →
      Css.new_from_str fromKV (tokenize (appendNativeCss nativeCss content)) =
        .error pe →
      Css.hot_reload_override_native_ctor fromKV readFile tokenize nativeCss
        file_path = none) ∧
    (∀ (pe : CssParseError S E),
      Css.new_from_str fromKV (tokenize nativeCss) = .error pe →
      Css.native fromKV tokenize nativeCss = (none : Option (Css P))) ∧
    (∀ (css : Css P), Css.new_from_str fromKV (tokenize nativeCss) = .ok css →
      Css.native fromKV tokenize nativeCss = some css) := by
  refine ⟨?_, ?_, ?_, ?_, ?_⟩
  · intro e h
    constructor <;>
      simp [Css.hot_reload, Css.hot_reload_override_native_ctor, h]
  · intro content pe h hp
    simp [Css.hot_reload, h, hp]
  · intro content pe h hp
    simp [Css.hot_reload_override_native_ctor, h, hp]
  · intro pe hp
    simp [Css.native, hp]
  · intro css hp
    simp [Css.native, hp]

/-- Witness for C9's amended theorem: a read failure gives the typed `Io`
error; a parse failure of the hot-reloaded contents gives the panic outcome
in both constructors; `native()` succeeds on an empty native stylesheet. -/
theorem c9_witness :
    Css.hot_reload (F := Unit) miniFromKV (fun _ => .error ())
        (fun _ => ([] : List (TokRes Unit))) (str "a.css") =
      some (.error (.Io () (str "a.css"))) ∧
    Css.hot_reload (S := Unit) (F := Unit) miniFromKV
        (fun _ => .ok (str "x"))
        (fun _ => [.ok (.Declaration (str "text-align") (str "center"))])
        (str "a.css") = none ∧
    Css.hot_reload_override_native_ctor (S := Unit) (F := Unit) miniFromKV
        (fun _ => .ok (str "x"))
        (fun _ => [.ok (.Declaration (str "text-align") (str "center"))])
        (str "") (str "a.css") = none ∧
    Css.native miniFromKV (fun _ => ([] : List (TokRes Unit))) (str "") =
      some (Css.mk none false [] [] true) :=
  have h₁ := c9_hot_reload_fatality miniFromKV (fun _ => (.error () : Except Unit Str))
    (fun _ => ([] : List (TokRes Unit))) (str "") (str "a.css")
  have h₂ := c9_hot_reload_fatality miniFromKV
    (fun _ => (.ok (str "x") : Except Unit Str))
    (fun _ => [(.ok (.Declaration (str "text-align") (str "center")) : TokRes Unit)])
    (str "") (str "a.css")
  have h₃ := c9_hot_reload_fatality miniFromKV (fun _ => (.error () : Except Unit Str))
    (fun _ => ([] : List (TokRes Unit))) (str "") (str "")
  ⟨(h₁.1 () rfl).1,
   h₂.2.1 (str "x") .MalformedCss rfl rfl,
   h₂.2.2.1 (str "x") .MalformedCss rfl rfl,
   h₃.2.2.2.2 (Css.mk none false [] [] true) rfl⟩

/-- Spec-side definition (§4.2 of the spec): the keys of the declarations the
Rule Builder accepts, in source order — the `Declaration` tokens arriving
while inside a block with no pseudo-class active, up to the end of the
stream (or the first tokenizer error). -/
def declKeysInSourceOrder {S : Type} :
    Bool → Option Str → List (TokRes S) → List Str
  | _, _, [] => []
  | _, _, .error _ :: _ => []
  | _, _, .ok .EndOfStream :: _ => []
  | _, pseudo, .ok .BlockStart :: rest => declKeysInSourceOrder true pseudo rest
  | _, _, .ok .BlockEnd :: rest => declKeysInSourceOrder false none rest
  | inBlock, pseudo, .ok (.Declaration key _) :: rest =>
    if inBlock && pseudo.isNone then
      key :: declKeysInSourceOrder inBlock pseudo rest
    else declKeysInSourceOrder inBlock pseudo rest
  | inBlock, _, .ok (.PseudoClass p) :: rest =>
    declKeysInSourceOrder inBlock (some p) rest
  | inBlock, pseudo, .ok _ :: rest => declKeysInSourceOrder inBlock pseudo rest

/-- `insertClass` keeps the class set duplicate-free. -/
theorem insertClass_nodup (c : Str) (l : List Str) (h : l.Nodup) :
    (insertClass c l).Nodup := by
  unfold insertClass
  split
  · exact h
  · exact List.nodup_cons.mpr ⟨by assumption, h⟩

/-- Sorting a duplicate-free class set yields a strictly increasing
(lexicographically ascending, duplicate-free) list. -/
theorem sortClasses_pairwise_lt (l : List Str) (h : l.Nodup) :
    List.Pairwise (· < ·) (sortClasses l) := by
  have hs : List.Sorted (· ≤ ·) (sortClasses l) :=
    List.sorted_insertionSort _ l
  have hn : (sortClasses l).Nodup :=
    ((List.perm_insertionSort (· ≤ ·) l).symm).nodup h
  exact hs.lt_of_le hn

/-- The emitted class list does not depend on the order in which the class
set was collected: permuted inputs sort to the same list. -/
theorem sortClasses_perm_eq {l₁ l₂ : List Str} (h : l₁.Perm l₂) :
    sortClasses l₁ = sortClasses l₂ :=
  List.eq_of_perm_of_sorted
    ((List.perm_insertionSort (· ≤ ·) l₁).trans
      (h.trans (List.perm_insertionSort (· ≤ ·) l₂).symm))
    (List.sorted_insertionSort _ l₁) (List.sorted_insertionSort _ l₂)

/-- Invariant of the `new_from_str` loop: the collected class set stays
duplicate-free and every emitted rule's class list is strictly sorted. -/
theorem runTokens_classes_invariant {P E S : Type}
    (fromKV : Str → Str → Except E P) :
    ∀ (stream : List (TokRes S)) (st st' : ParserState P),
      runTokens fromKV st stream = .ok st' →
      st.current_classes.Nodup →
      (∀ r ∈ st.css_rules, List.Pairwise (· < ·) r.classes) →
      st'.current_classes.Nodup ∧
        ∀ r ∈ st'.css_rules, List.Pairwise (· < ·) r.classes := by
  intro stream
  induction stream with
  | nil =>
    intro st st' h hn hr
    cases h
    exact ⟨hn, hr⟩
  | cons tr rest ih =>
    intro st st' h hn hr
    rcases tr with e | tok
    · simp [runTokens] at h
    rcases tok with _ | _ | _ | s | s | s | ⟨k, v⟩ | s | _
    · -- EndOfStream
      simp only [runTokens] at h
      cases h
      exact ⟨hn, hr⟩
    · -- BlockStart
      simp [runTokens, stepToken] at h
      exact ih _ _ h hn hr
    · -- BlockEnd
      simp [runTokens, stepToken] at h
      exact ih _ _ h List.nodup_nil hr
    · -- TypeSelector
      cases hb : st.parser_in_block <;> simp [runTokens, stepToken, hb] at h
      exact ih _ _ h hn hr
    · -- IdSelector
      cases hb : st.parser_in_block <;> simp [runTokens, stepToken, hb] at h
      exact ih _ _ h hn hr
    · -- ClassSelector
      cases hb : st.parser_in_block <;> simp [runTokens, stepToken, hb] at h
      exact ih _ _ h (insertClass_nodup s _ hn) hr
    · -- Declaration
      cases hb : st.parser_in_block <;> simp [runTokens, stepToken, hb] at h
      rcases hps : st.current_pseudo_selector with _ | p <;> simp [hps] at h
      · rcases hdet : determine_static_or_dynamic_css_property fromKV k v with
          e | decl <;> simp [hdet] at h
        refine ih _ _ h hn ?_
        intro r hrm
        rcases List.mem_append.mp hrm with hold | hnew
        · exact hr r hold
        · rcases List.mem_singleton.mp hnew with rfl
          exact sortClasses_pairwise_lt _ hn
      · exact ih _ _ h hn hr
    · -- PseudoClass
      cases hb : st.parser_in_block <;> simp [runTokens, stepToken, hb] at h
      exact ih _ _ h hn hr
    · -- Unknown
      simp [runTokens, stepToken] at h
      exact ih _ _ h hn hr

/-- Refinement of the `new_from_str` loop against the spec-side tracer: the
keys of the rules accumulated by a successful run are the previously
accumulated keys followed by the accepted declaration keys in source
order. -/
theorem runTokens_decl_keys {P E S : Type}
    (fromKV : Str → Str → Except E P) :
    ∀ (stream : List (TokRes S)) (st st' : ParserState P),
      runTokens fromKV st stream = .ok st' →
      st'.css_rules.map (fun r => r.declaration.1) =
        st.css_rules.map (fun r => r.declaration.1) ++
          declKeysInSourceOrder st.parser_in_block st.current_pseudo_selector
            stream := by
  intro stream
  induction stream with
  | nil =>
    intro st st' h
    cases h
    simp [declKeysInSourceOrder]
  | cons tr rest ih =>
    intro st st' h
    rcases tr with e | tok
    · simp [runTokens] at h
    rcases tok with _ | _ | _ | s | s | s | ⟨k, v⟩ | s | _
    · -- EndOfStream
      simp only [runTokens] at h
      cases h
      simp [declKeysInSourceOrder]
    · -- BlockStart
      simp [runTokens, stepToken] at h
      simpa [declKeysInSourceOrder] using ih _ _ h
    · -- BlockEnd
      simp [runTokens, stepToken] at h
      simpa [declKeysInSourceOrder] using ih _ _ h
    · -- TypeSelector
      cases hb : st.parser_in_block <;> simp [runTokens, stepToken, hb] at h
      simpa [declKeysInSourceOrder] using ih _ _ h
    · -- IdSelector
      cases hb : st.parser_in_block <;> simp [runTokens, stepToken, hb] at h
      simpa [declKeysInSourceOrder] using ih _ _ h
    · -- ClassSelector
      cases hb : st.parser_in_block <;> simp [runTokens, stepToken, hb] at h
      simpa [declKeysInSourceOrder] using ih _ _ h
    · -- Declaration
      cases hb : st.parser_in_block <;> simp [runTokens, stepToken, hb] at h
      rcases hps : st.current_pseudo_selector with _ | p <;> simp [hps] at h
      · rcases hdet : determine_static_or_dynamic_css_property fromKV k v with
          e | decl <;> simp [hdet] at h
        have hk := ih _ _ h
        simp only [List.map_append] at hk
        simpa [declKeysInSourceOrder, hb, hps] using hk
      · simpa [declKeysInSourceOrder, hb, hps] using ih _ _ h
    · -- PseudoClass
      cases hb : st.parser_in_block <;> simp [runTokens, stepToken, hb] at h
      simpa [declKeysInSourceOrder] using ih _ _ h
    · -- Unknown
      simp [runTokens, stepToken] at h
      simpa [declKeysInSourceOrder] using ih _ _ h

/-- C6: every rule emitted by a successful `Css::new_from_str` has its class
list sorted lexicographically ascending with duplicates removed (strictly
increasing), the emitted rules carry the accepted declaration keys in source
order, and the sorted class list is independent of the order in which the
class selectors appeared. -/
theorem c6_sorted_classes_source_order {P E S : Type}
    (fromKV : Str → Str → Except E P) (stream : List (TokRes S))
    (css : Css P) (h : Css.new_from_str fromKV stream = .ok css) :
    (∀ r ∈ css.rules, List.Pairwise (· < ·) r.classes) ∧
    css.rules.map (fun r => r.declaration.1) =
      declKeysInSourceOrder false none stream ∧
    ∀ (l₁ l₂ : List Str), l₁.Perm l₂ → sortClasses l₁ = sortClasses l₂ := by
  unfold Css.new_from_str at h
  rcases hrun : runTokens fromKV (initParserState P) stream with e | final <;>
    rw [hrun] at h <;> dsimp only at h
  · cases h
  · by_cases hn : final.block_nesting = 0
    · rw [if_neg (fun hc => hc hn)] at h
      cases h
      refine ⟨?_, ?_, fun l₁ l₂ hp => sortClasses_perm_eq hp⟩
      · exact (runTokens_classes_invariant fromKV stream _ _ hrun
          List.nodup_nil (by simp [initParserState])).2
      · simpa [initParserState] using runTokens_decl_keys fromKV stream _ _ hrun
    · rw [if_pos hn] at h
      cases h

/-- Witness for C6 at the spec's two-rule scenario (an `#a` block followed by
a `.b.a` block): the second rule's class list is the sorted `["a", "b"]`
even though the selectors arrived as `.b.a`; the rules carry their
declaration keys in source order; and sorting the collected class set is
insensitive to collection order. -/
theorem c6_witness :
    List.Pairwise (fun a b : Str => a < b) [str "a", str "b"] ∧
    (Css.mk none false
        [CssRule.mk (str "*") (some (str "a")) []
          (str "text-align", .Static (.TextAlign .Center)),
         CssRule.mk (str "*") none [str "a", str "b"]
          (str "text-align", .Static (.TextAlign .Left))] [] true :
        Css MiniProp).rules.map (fun r => r.declaration.1) =
      [str "text-align", str "text-align"] ∧
    sortClasses [str "b", str "a"] = sortClasses [str "a", str "b"] :=
  have h := c6_sorted_classes_source_order (S := Unit) miniFromKV
    [.ok (.IdSelector (str "a")), .ok .BlockStart,
     .ok (.Declaration (str "text-align") (str "center")), .ok .BlockEnd,
     .ok (.ClassSelector (str "b")), .ok (.ClassSelector (str "a")),
     .ok .BlockStart, .ok (.Declaration (str "text-align") (str "left")),
     .ok .BlockEnd, .ok .EndOfStream]
    (Css.mk none false
      [CssRule.mk (str "*") (some (str "a")) []
        (str "text-align", .Static (.TextAlign .Center)),
       CssRule.mk (str "*") none [str "a", str "b"]
        (str "text-align", .Static (.TextAlign .Left))] [] true) rfl
  ⟨h.1 (CssRule.mk (str "*") none [str "a", str "b"]
      (str "text-align", .Static (.TextAlign .Left))) (.tail _ (.head _)),
   h.2.1.trans (by rfl),
   h.2.2 [str "b", str "a"] [str "a", str "b"] (by decide)⟩
